import Mathlib

/-!
Shallow embedding of the FarDriver BLE telemetry core
(`src/pc_display/FarDriver_Monitor.py`): the 16-byte frame codec
(`PacketInspector.analyze_packet` and its per-type parse helpers), the
bounded packet history and statistics, the change-tracked telemetry store
(`ControllerData.update_value`, `has_changes`), the type-dispatching
`message_handler`, and the staleness-based connection display logic.

Raw frames are modelled as `List ℕ` of byte values; Python floats are
modelled as `ℚ` (exact arithmetic), except the square-root based current
magnitude and power which live in `ℝ`.
-/

namespace FarDriver

/-! ## Packet codec: `PacketInspector.analyze_packet` and parse helpers -/

/-- Per-type payload decoded by the `_parse_*` helpers of `PacketInspector`.
Constructor `main` corresponds to `_parse_main_data` (index 0): gear bits,
mapped gear label, rpm, iq and id currents in amps.  `voltage` is
`_parse_voltage_data` (index 1), `ctemp` is `_parse_controller_temp_data`
(index 4), `motor` is `_parse_motor_throttle_data` (index 13), and
`unknown` records an unrecognised index. -/
inductive ParsedData where
  | main (gear_bits : ℕ) (gear : String) (rpm : ℕ) (iq : ℚ) (idc : ℚ)
  | voltage (raw : ℕ) (volts : ℚ)
  | ctemp (temp : ℕ)
  | motor (motor_temp : ℕ) (throttle_raw : ℕ) (throttle_percent : ℚ)
  | unknown (idx : ℕ)
deriving DecidableEq, Repr

/-- Frame rejection reasons of `analyze_packet`: the length guard
(`len(data) < 16`) and the header guard (`data[0] != 0xAA`). -/
inductive FrameErr where
  | badLength (len : ℕ)
  | badHeader (b : ℕ)
deriving DecidableEq, Repr

/-- An accepted frame's analysis record (`packet_info` dict built by
`analyze_packet`): type index, stored and expected checksum, the
`checksum_valid` flag, the reserved byte and the per-type payload. -/
structure PacketInfo where
  index : ℕ
  checksum : ℕ
  expected_checksum : ℕ
  checksum_valid : Bool
  reserved : ℕ
  parsed_data : ParsedData
deriving DecidableEq, Repr

/-- Result of `analyze_packet`: either a rejection record (`valid: False`
with an error string) or an accepted packet record (`valid: True`). -/
inductive AnalyzeResult where
  | invalid (e : FrameErr)
  | packet (p : PacketInfo)
deriving DecidableEq, Repr

/-- Gear label lookup `gear_map.get(gear_bits, 'Unknown')` with
`gear_map = {0: 'High', 1: 'Mid', 2: 'Low', 3: 'Mid'}`. -/
def gear_map (b : ℕ) : String :=
  match b with
  | 0 => "High"
  | 1 => "Mid"
  | 2 => "Low"
  | 3 => "Mid"
  | _ => "Unknown"

/-- Raw rpm word of a main-data frame: `(data[4] << 8) | data[5]`. -/
def rpm_raw (data : List ℕ) : ℕ :=
  (data.getD 4 0) <<< 8 ||| data.getD 5 0

/-- Iq current of a main-data frame: `((data[8] << 8) | data[9]) / 100.0`. -/
def iq_current (data : List ℕ) : ℚ :=
  (((data.getD 8 0) <<< 8 ||| data.getD 9 0 : ℕ) : ℚ) / 100

/-- Id current of a main-data frame: `((data[10] << 8) | data[11]) / 100.0`. -/
def id_current (data : List ℕ) : ℚ :=
  (((data.getD 10 0) <<< 8 ||| data.getD 11 0 : ℕ) : ℚ) / 100

/-- Current magnitude `is_mag = (iq*iq + id*id) ** 0.5` computed by
`_parse_main_data` and by the type-0 branch of `message_handler`. -/
noncomputable def current_magnitude (iq idc : ℚ) : ℝ :=
  Real.sqrt ((iq : ℝ) * iq + (idc : ℝ) * idc)

/-- `PacketInspector._parse_main_data` (index 0): gear bits
`(data[2] >> 2) & 0x03`, mapped gear label, rpm, iq and id. -/
def parse_main_data (data : List ℕ) : ParsedData :=
  let gear_bits := (data.getD 2 0 >>> 2) &&& 0x03
  let gear := gear_map gear_bits
  .main gear_bits gear (rpm_raw data) (iq_current data) (id_current data)

/-- `PacketInspector._parse_voltage_data` (index 1):
`voltage_raw = (data[2] << 8) | data[3]`, `voltage = voltage_raw / 10.0`. -/
def parse_voltage_data (data : List ℕ) : ParsedData :=
  let voltage_raw := (data.getD 2 0) <<< 8 ||| data.getD 3 0
  .voltage voltage_raw ((voltage_raw : ℚ) / 10)

/-- `PacketInspector._parse_controller_temp_data` (index 4): `temp = data[2]`. -/
def parse_controller_temp_data (data : List ℕ) : ParsedData :=
  .ctemp (data.getD 2 0)

/-- `PacketInspector._parse_motor_throttle_data` (index 13):
`motor_temp = data[2]`, `throttle_raw = (data[4] << 8) | data[5]`,
`throttle_percent = (throttle_raw / 4095.0) * 100`. -/
def parse_motor_throttle_data (data : List ℕ) : ParsedData :=
  let throttle_raw := (data.getD 4 0) <<< 8 ||| data.getD 5 0
  .motor (data.getD 2 0) throttle_raw ((throttle_raw : ℚ) / 4095 * 100)

/-- Expected checksum of `analyze_packet`:
`expected_checksum = 0; for i in range(1, 14): expected_checksum ^= data[i]`. -/
def expected_checksum (data : List ℕ) : ℕ :=
  (List.range' 1 13).foldl (fun a i => a ^^^ data.getD i 0) 0

/-- Payload dispatch of `analyze_packet` on the type index byte. -/
def parse_by_index (index : ℕ) (data : List ℕ) : ParsedData :=
  if index = 0 then parse_main_data data
  else if index = 1 then parse_voltage_data data
  else if index = 4 then parse_controller_temp_data data
  else if index = 13 then parse_motor_throttle_data data
  else .unknown index

/-- `PacketInspector.analyze_packet` on the raw byte payload: rejects
frames shorter than 16 bytes, rejects a non-`0xAA` header, otherwise
builds the packet record with `checksum_valid = (checksum == expected)`
and the per-type payload.  History recording is modelled separately by
`push_history`. -/
def analyze_packet (data : List ℕ) : AnalyzeResult :=
  if data.length < 16 then .invalid (.badLength data.length)
  else if data.getD 0 0 ≠ 0xAA then .invalid (.badHeader (data.getD 0 0))
  else
    let index := data.getD 1 0
    let checksum := data.getD 14 0
    let reserved := data.getD 15 0
    let expected := expected_checksum data
    .packet
      { index := index
        checksum := checksum
        expected_checksum := expected
        checksum_valid := decide (checksum = expected)
        reserved := reserved
        parsed_data := parse_by_index index data }

/-! ## Packet history: bounded buffer, recent packets, statistics -/

/-- History insertion done at the end of `analyze_packet`:
`packet_history.append(packet_info); if len > max_history: pop(0)`. -/
def push_history (cap : ℕ) (h : List PacketInfo) (p : PacketInfo) : List PacketInfo :=
  if cap < (h ++ [p]).length then (h ++ [p]).tail else h ++ [p]

/-- Capacity bound of `PacketInspector` (`self.max_history = 1000`). -/
def max_history : ℕ := 1000

/-- Recording a whole sequence of accepted packets in arrival order. -/
def record_packets (cap : ℕ) (h : List PacketInfo) (ps : List PacketInfo) : List PacketInfo :=
  ps.foldl (push_history cap) h

/-- One inspector step: analyze a raw frame and, when accepted, store the
packet record in the bounded history (rejected frames return early in
`analyze_packet` and are never appended). -/
def inspect_step (h : List PacketInfo) (data : List ℕ) : List PacketInfo × AnalyzeResult :=
  match analyze_packet data with
  | .invalid e => (h, .invalid e)
  | .packet p => (push_history max_history h p, .packet p)

/-- `PacketInspector.get_recent_packets`:
`self.packet_history[-count:] if self.packet_history else []` (Python
slice semantics: `[-0:]` is the whole list). -/
def get_recent_packets (h : List PacketInfo) (count : ℕ) : List PacketInfo :=
  if h = [] then []
  else if count = 0 then h
  else h.drop (h.length - count)

/-- Statistics record returned by `get_packet_statistics` for a nonempty
history; the index distribution dict is modelled as a count function. -/
structure Stats where
  total_packets : ℕ
  valid_packets : ℕ
  checksum_errors : ℕ
  index_distribution : ℕ → ℕ
  error_rate : ℚ

/-- Loop body of `get_packet_statistics`: for each valid packet bump its
index count and, when its checksum flag is false, the error count. -/
def stats_step (acc : (ℕ → ℕ) × ℕ) (p : PacketInfo) : (ℕ → ℕ) × ℕ :=
  (fun j => if j = p.index then acc.1 p.index + 1 else acc.1 j,
   if ¬ p.checksum_valid then acc.2 + 1 else acc.2)

/-- The statistics loop over the whole history, from empty counters. -/
def stats_fold (h : List PacketInfo) : (ℕ → ℕ) × ℕ :=
  h.foldl stats_step (fun _ => 0, 0)

/-- `PacketInspector.get_packet_statistics`: returns an empty result for an
empty history (`if not self.packet_history: return {}`), otherwise the
totals, distribution and `error_rate = checksum_errors / total_packets`.
All history entries are accepted packets, so the loop's `packet['valid']`
guard is always taken and `valid_packets` equals the history length. -/
def get_packet_statistics (h : List PacketInfo) : Option Stats :=
  if h = [] then none
  else
    let folded := stats_fold h
    some
      { total_packets := h.length
        valid_packets := h.length
        checksum_errors := folded.2
        index_distribution := folded.1
        error_rate :=
          if 0 < h.length then (folded.2 : ℚ) / (h.length : ℚ) else 0 }

/-! ## Telemetry store: `ControllerData` with change tracking -/

/-- The mutable controller state of `ControllerData.__init__`: the eight
telemetry fields, the last-update timestamp, the `_last_values` shadow dict
(one `Option` slot per key used by the program), the `_has_changes` flag,
and the recording state.  `recorded` counts `record_data_point` calls.
Python int fields are `ℕ`, float fields are `ℚ`, except `power` which the
type-0 handler computes with a square root and is therefore `ℝ`. -/
structure ControllerData where
  throttle : ℕ
  gear : ℕ
  rpm : ℕ
  controller_temp : ℕ
  motor_temp : ℕ
  speed : ℚ
  power : ℝ
  voltage : ℚ
  last_update : ℚ
  sh_throttle : Option ℕ
  sh_gear : Option ℕ
  sh_rpm : Option ℕ
  sh_controller_temp : Option ℕ
  sh_motor_temp : Option ℕ
  sh_speed : Option ℚ
  sh_power : Option ℝ
  sh_voltage : Option ℚ
  has_changes_flag : Bool
  recording : Bool
  recorded : ℕ
  packet_count : ℕ
  packet_errors : ℕ

/-- Initial state built by `ControllerData.__init__`: all telemetry zero,
empty `_last_values` dict, no pending changes, not recording. -/
def ControllerData.init (t0 : ℚ) : ControllerData :=
  { throttle := 0, gear := 0, rpm := 0, controller_temp := 0, motor_temp := 0
    speed := 0, power := 0, voltage := 0, last_update := t0
    sh_throttle := none, sh_gear := none, sh_rpm := none
    sh_controller_temp := none, sh_motor_temp := none, sh_speed := none
    sh_power := none, sh_voltage := none
    has_changes_flag := false, recording := false, recorded := 0
    packet_count := 0, packet_errors := 0 }

/-- The update condition of `ControllerData.update_value`:
`key not in self._last_values or self._last_values[key] != value`. -/
def willChange {α : Type} [DecidableEq α] (shadow : Option α) (v : α) : Bool :=
  match shadow with
  | none => true
  | some w => decide (w ≠ v)

/-- Access to one telemetry field and its `_last_values` shadow slot, so
the single Python method `update_value(key, value)` can be modelled once
for every key. -/
structure FieldLens (α : Type) where
  get : ControllerData → α
  set : α → ControllerData → ControllerData
  getSh : ControllerData → Option α
  setSh : Option α → ControllerData → ControllerData

/-- `ControllerData.update_value(key, value)`: when the shadow dict lacks
the key or holds a different value, store the value in the shadow, raise
`_has_changes`, write the field, refresh `last_update`, and append a
recording row when recording; otherwise do nothing. -/
def update_value {α : Type} [DecidableEq α] (L : FieldLens α) (v : α) (t : ℚ)
    (d : ControllerData) : ControllerData :=
  if willChange (L.getSh d) v then
    let d1 := L.setSh (some v) (L.set v d)
    { d1 with
      has_changes_flag := true
      last_update := t
      recorded := if d1.recording then d1.recorded + 1 else d1.recorded }
  else d

/-- Lens for the `throttle` key. -/
def throttleLens : FieldLens ℕ :=
  ⟨fun d => d.throttle, fun v d => { d with throttle := v },
   fun d => d.sh_throttle, fun s d => { d with sh_throttle := s }⟩

/-- Lens for the `gear` key. -/
def gearLens : FieldLens ℕ :=
  ⟨fun d => d.gear, fun v d => { d with gear := v },
   fun d => d.sh_gear, fun s d => { d with sh_gear := s }⟩

/-- Lens for the `rpm` key. -/
def rpmLens : FieldLens ℕ :=
  ⟨fun d => d.rpm, fun v d => { d with rpm := v },
   fun d => d.sh_rpm, fun s d => { d with sh_rpm := s }⟩

/-- Lens for the `controller_temp` key. -/
def controllerTempLens : FieldLens ℕ :=
  ⟨fun d => d.controller_temp, fun v d => { d with controller_temp := v },
   fun d => d.sh_controller_temp, fun s d => { d with sh_controller_temp := s }⟩

/-- Lens for the `motor_temp` key. -/
def motorTempLens : FieldLens ℕ :=
  ⟨fun d => d.motor_temp, fun v d => { d with motor_temp := v },
   fun d => d.sh_motor_temp, fun s d => { d with sh_motor_temp := s }⟩

/-- Lens for the `speed` key. -/
def speedLens : FieldLens ℚ :=
  ⟨fun d => d.speed, fun v d => { d with speed := v },
   fun d => d.sh_speed, fun s d => { d with sh_speed := s }⟩

/-- Lens for the `power` key. -/
def powerLens : FieldLens ℝ :=
  ⟨fun d => d.power, fun v d => { d with power := v },
   fun d => d.sh_power, fun s d => { d with sh_power := s }⟩

/-- Lens for the `voltage` key. -/
def voltageLens : FieldLens ℚ :=
  ⟨fun d => d.voltage, fun v d => { d with voltage := v },
   fun d => d.sh_voltage, fun s d => { d with sh_voltage := s }⟩

/-- `ControllerData.has_changes`: returns the `_has_changes` flag and
clears it. -/
def ControllerData.consume_changes (d : ControllerData) : Bool × ControllerData :=
  (d.has_changes_flag, { d with has_changes_flag := false })

/-! ## `message_handler`: per-type store updates -/

/-- Clamped gear of the type-0 branch: `gear = max(1, min(3, (data[2] >> 2) & 0x03))`. -/
def gear_clamped (data : List ℕ) : ℕ :=
  max 1 (min 3 ((data.getD 2 0 >>> 2) &&& 0x03))

/-- Power computed by the type-0 branch of `message_handler`:
`power = -is_mag * ctr_data.voltage`, then `if iq < 0 or id < 0: power = -power`. -/
noncomputable def type0_power (data : List ℕ) (voltage : ℚ) : ℝ :=
  let iq := iq_current data
  let idc := id_current data
  let is_mag := current_magnitude iq idc
  let power := -is_mag * (voltage : ℝ)
  if iq < 0 ∨ idc < 0 then -power else power

/-- Speed computed by the type-0 branch:
`rear_wheel_rpm = rpm / 4.0; distance_per_min = rear_wheel_rpm * 1.350;`
`speed = distance_per_min * 0.06`. -/
def type0_speed (data : List ℕ) : ℚ :=
  let wheel_circumference : ℚ := 1350 / 1000
  let rear_wheel_rpm : ℚ := (rpm_raw data : ℚ) / 4
  let distance_per_min := rear_wheel_rpm * wheel_circumference
  distance_per_min * (6 / 100)

/-- Type-0 (main data) branch of `message_handler`: computes rpm, clamped
gear, power from the currents and the stored voltage, and speed, then
applies `update_value` for the keys `rpm`, `gear`, `power`, `speed` in
program order. -/
noncomputable def handle_type0 (data : List ℕ) (t : ℚ) (d : ControllerData) : ControllerData :=
  update_value speedLens (type0_speed data) t
    (update_value powerLens (type0_power data d.voltage) t
      (update_value gearLens (gear_clamped data) t
        (update_value rpmLens (rpm_raw data) t d)))

/-- Type-1 (voltage) branch: `voltage = ((data[2] << 8) | data[3]) / 10.0`. -/
def handle_type1 (data : List ℕ) (t : ℚ) (d : ControllerData) : ControllerData :=
  update_value voltageLens ((((data.getD 2 0) <<< 8 ||| data.getD 3 0 : ℕ) : ℚ) / 10) t d

/-- Type-4 (controller temperature) branch: `controller_temp = data[2]`. -/
def handle_type4 (data : List ℕ) (t : ℚ) (d : ControllerData) : ControllerData :=
  update_value controllerTempLens (data.getD 2 0) t d

/-- Type-13 (motor temperature and throttle) branch. -/
def handle_type13 (data : List ℕ) (t : ℚ) (d : ControllerData) : ControllerData :=
  let d1 := update_value motorTempLens (data.getD 2 0) t d
  update_value throttleLens ((data.getD 4 0) <<< 8 ||| data.getD 5 0) t d1

/-- `message_handler(data)` acting on the controller store and the global
`is_connected` flag: the two guards reject short frames and bad headers
(counting a packet error), otherwise the handler stamps `last_update`,
raises the connected flag, counts the packet
(`update_performance_metrics`), and dispatches on the type index.
Terminal logging and latency averaging are omitted. -/
noncomputable def message_handler (data : List ℕ) (t : ℚ)
    (d : ControllerData) (conn : Bool) : ControllerData × Bool :=
  if data.length < 16 then
    ({ d with packet_errors := d.packet_errors + 1 }, conn)
  else if data.getD 0 0 ≠ 0xAA then
    ({ d with packet_errors := d.packet_errors + 1 }, conn)
  else
    let d0 := { d with last_update := t, packet_count := d.packet_count + 1 }
    let index := data.getD 1 0
    let d1 :=
      if index = 0 then handle_type0 data t d0
      else if index = 1 then handle_type1 data t d0
      else if index = 4 then handle_type4 data t d0
      else if index = 13 then handle_type13 data t d0
      else d0
    (d1, true)

/-- Disconnected-state reset in `update_display`: writes zeros directly
into the telemetry fields (`ctr_data.throttle = 0` and so on), bypassing
`update_value`, so the `_last_values` shadow dict and the `_has_changes`
flag are left untouched. -/
def reset_disconnected (d : ControllerData) : ControllerData :=
  { d with throttle := 0, gear := 0, rpm := 0, controller_temp := 0
           motor_temp := 0, speed := 0, power := 0, voltage := 0 }

/-! ## Connection display status -/

/-- Staleness test of `update_connection_buttons` and `update_display`:
`has_recent_data = (time.time() - ctr_data.last_update) < 5.0`. -/
def has_recent_data (now last_update : ℚ) : Bool :=
  decide (now - last_update < 5)

/-- Displayed connection state:
`actual_connected = is_connected or has_recent_data`. -/
def actual_connected (is_conn : Bool) (now last_update : ℚ) : Bool :=
  is_conn || has_recent_data now last_update

/-! ## Result accessors and concrete inputs used in the development -/

/-- Whether an analysis result is an accepted packet (`valid: True`). -/
def AnalyzeResult.isPacket : AnalyzeResult → Bool
  | .invalid _ => false
  | .packet _ => true

/-- The `checksum_valid` flag of an accepted packet (`false` on rejection). -/
def AnalyzeResult.checksumOk : AnalyzeResult → Bool
  | .invalid _ => false
  | .packet p => p.checksum_valid

/-- The decoded per-type payload of an accepted packet. -/
def AnalyzeResult.parsedOf : AnalyzeResult → Option ParsedData
  | .invalid _ => none
  | .packet p => some p.parsed_data

/-- The type index of an accepted packet. -/
def AnalyzeResult.indexOf : AnalyzeResult → Option ℕ
  | .invalid _ => none
  | .packet p => some p.index

/-- A 16-byte frame with an undocumented type index (7) and a checksum
byte (0x05) that does not match the expected XOR (0x07). -/
def exFrameUnknown : List ℕ :=
  [0xAA, 7, 0, 0, 0, 0, 0, 0, 0, 0, 0, 0, 0, 0, 0x05, 0]

/-- The spec's example main-data frame: type 0, rpm bytes `13 88`
(5000), iq bytes `27 10` (raw 10000, 100.00 A), id 0, gear byte 0x04,
with the checksum byte 0xA8 computed to match. -/
def exFrameMain : List ℕ :=
  [0xAA, 0, 0x04, 0, 0x13, 0x88, 0, 0, 0x27, 0x10, 0, 0, 0, 0, 0xA8, 0]

/-- A 17-byte input whose first byte is the 0xAA header. -/
def exFrame17 : List ℕ :=
  [0xAA, 0, 0, 0, 0, 0, 0, 0, 0, 0, 0, 0, 0, 0, 0, 0, 0]

/-- A short (3-byte) input. -/
def exFrameShort : List ℕ :=
  [0x01, 0x02, 0x03]

/-- A minimal concrete packet record with a given index, used to exercise
the history buffer. -/
def pInfo (i : ℕ) : PacketInfo :=
  { index := i, checksum := 0, expected_checksum := 0, checksum_valid := true
    reserved := 0, parsed_data := .unknown i }

/-- A packet record whose checksum flag is false, used to exercise the
statistics counters. -/
def pInfoBad (i : ℕ) : PacketInfo :=
  { index := i, checksum := 1, expected_checksum := 0, checksum_valid := false
    reserved := 0, parsed_data := .unknown i }

/-- A concrete store whose telemetry fields are nonzero and whose shadow
dict agrees with every field, as after a run of successful updates. -/
noncomputable def exStore : ControllerData :=
  { throttle := 400, gear := 2, rpm := 5000, controller_temp := 30
    motor_temp := 40, speed := 25, power := -100, voltage := 48
    last_update := 10
    sh_throttle := some 400, sh_gear := some 2, sh_rpm := some 5000
    sh_controller_temp := some 30, sh_motor_temp := some 40
    sh_speed := some 25, sh_power := some (-100), sh_voltage := some 48
    has_changes_flag := false, recording := false, recorded := 0
    packet_count := 7, packet_errors := 0 }

/-! ## Helper lemmas -/

/-- Byte recombination: for a low byte below 256, shifting the high byte
left by 8 and or-ing equals the big-endian value `hi * 256 + lo`. -/
theorem shift8_or_eq (a b : ℕ) (hb : b < 256) : a <<< 8 ||| b = a * 256 + b := by
  have h : (2 : ℕ) ^ 8 * a + b = 2 ^ 8 * a ||| b :=
    Nat.mul_add_lt_is_or (by omega) a
  calc a <<< 8 ||| b = a * 2 ^ 8 ||| b := by rw [Nat.shiftLeft_eq]
    _ = 2 ^ 8 * a ||| b := by rw [Nat.mul_comm]
    _ = 2 ^ 8 * a + b := h.symm
    _ = a * 256 + b := by norm_num [Nat.mul_comm]

/-- An in-range `getD` is a member of the list. -/
theorem getD_mem_of_lt {l : List ℕ} {i : ℕ} (h : i < l.length) :
    l.getD i 0 ∈ l := by
  rw [List.getD_eq_getElem l 0 h]
  exact List.getElem_mem h

/-- Bytes of a byte list read in range are below 256. -/
theorem getD_lt_256 {l : List ℕ} (hbytes : ∀ b ∈ l, b < 256) {i : ℕ}
    (h : i < l.length) : l.getD i 0 < 256 :=
  hbytes _ (getD_mem_of_lt h)

/-! ## C1: checksum flag iff XOR of bytes 1..13 equals byte 14 -/

/-- C1: for every 16-byte frame with header 0xAA, `analyze_packet`
accepts the frame and decodes its payload for every type index, and the
`checksum_valid` flag is true exactly when the XOR of bytes 1 through 13
equals byte 14; a mismatch never blocks decoding. -/
theorem checksum_flag_iff (data : List ℕ) (hlen : data.length = 16)
    (hhd : data.getD 0 0 = 0xAA) :
    (analyze_packet data).isPacket = true ∧
    ((analyze_packet data).checksumOk = true ↔
      data.getD 14 0 = expected_checksum data) ∧
    (analyze_packet data).indexOf = some (data.getD 1 0) ∧
    (analyze_packet data).parsedOf = some (parse_by_index (data.getD 1 0) data) := by
  have hnot : ¬ data.length < 16 := by omega
  have hhd2 : ¬ data.getD 0 0 ≠ 0xAA := fun h => h hhd
  unfold analyze_packet
  rw [if_neg hnot, if_neg hhd2]
  refine ⟨rfl, ?_, rfl, rfl⟩
  simp [AnalyzeResult.checksumOk]

/-- Witness for C1 at a concrete undocumented-index frame with a
mismatched checksum: the frame is still decoded, with the flag false. -/
theorem checksum_flag_iff_witness :
    (analyze_packet exFrameUnknown).isPacket = true ∧
    ((analyze_packet exFrameUnknown).checksumOk = true ↔
      exFrameUnknown.getD 14 0 = expected_checksum exFrameUnknown) ∧
    (analyze_packet exFrameUnknown).indexOf = some (exFrameUnknown.getD 1 0) ∧
    (analyze_packet exFrameUnknown).parsedOf =
      some (parse_by_index (exFrameUnknown.getD 1 0) exFrameUnknown) :=
  checksum_flag_iff exFrameUnknown (by decide) (by decide)

/-! ## C2: type-0 field decoding and the spec's example frame -/

/-- C2: an accepted type-0 frame decodes to the gear bits
`(b2 >> 2) & 0x3` with mapping 0:High, 1:Mid, 2:Low, 3:Mid, the unsigned
big-endian rpm `b4*256 + b5`, and the currents `(b8*256+b9)/100` and
`(b10*256+b11)/100`, with the current magnitude `sqrt(iq² + id²)`; the
spec's example frame decodes to rpm 5000, iq 100.00 A, gear Mid, with a
matching checksum. -/
theorem type0_decode (data : List ℕ) (iq idc : ℚ) (hlen : data.length = 16)
    (hhd : data.getD 0 0 = 0xAA) (hidx : data.getD 1 0 = 0)
    (hbytes : ∀ b ∈ data, b < 256) :
    (analyze_packet data).parsedOf =
      some (ParsedData.main ((data.getD 2 0 >>> 2) &&& 0x03)
        (gear_map ((data.getD 2 0 >>> 2) &&& 0x03))
        (data.getD 4 0 * 256 + data.getD 5 0)
        (((data.getD 8 0 * 256 + data.getD 9 0 : ℕ) : ℚ) / 100)
        (((data.getD 10 0 * 256 + data.getD 11 0 : ℕ) : ℚ) / 100)) ∧
    gear_map 0 = "High" ∧ gear_map 1 = "Mid" ∧
    gear_map 2 = "Low" ∧ gear_map 3 = "Mid" ∧
    current_magnitude iq idc = Real.sqrt ((iq : ℝ) ^ 2 + (idc : ℝ) ^ 2) ∧
    (analyze_packet exFrameMain).checksumOk = true ∧
    (analyze_packet exFrameMain).parsedOf =
      some (ParsedData.main 1 "Mid" 5000 100 0) := by
  have hnot : ¬ data.length < 16 := by omega
  have hhd2 : ¬ data.getD 0 0 ≠ 0xAA := fun h => h hhd
  have hex : (analyze_packet exFrameMain).parsedOf =
      some (ParsedData.main 1 "Mid" 5000 100 0) := by
    simp only [analyze_packet, exFrameMain]
    norm_num [parse_by_index, parse_main_data, rpm_raw, iq_current, id_current,
      gear_map, AnalyzeResult.parsedOf, List.getD_cons_succ, List.getD_cons_zero]
    refine ⟨by decide, by decide, ?_⟩
    norm_num [show (39 <<< 8 ||| 16 : ℕ) = 10000 from by decide]
  refine ⟨?_, rfl, rfl, rfl, rfl, ?_, by decide, hex⟩
  · unfold analyze_packet
    rw [if_neg hnot, if_neg hhd2]
    show some (parse_by_index (data.getD 1 0) data) = _
    rw [hidx]
    unfold parse_by_index parse_main_data rpm_raw iq_current id_current
    rw [if_pos rfl,
      shift8_or_eq _ _ (getD_lt_256 hbytes (by omega)),
      shift8_or_eq _ _ (getD_lt_256 hbytes (by omega)),
      shift8_or_eq _ _ (getD_lt_256 hbytes (by omega))]
  · rw [current_magnitude, pow_two, pow_two]

/-- Witness for C2 at the spec's example frame, with iq 100 and id 0. -/
theorem type0_decode_witness :
    (analyze_packet exFrameMain).parsedOf =
      some (ParsedData.main ((exFrameMain.getD 2 0 >>> 2) &&& 0x03)
        (gear_map ((exFrameMain.getD 2 0 >>> 2) &&& 0x03))
        (exFrameMain.getD 4 0 * 256 + exFrameMain.getD 5 0)
        (((exFrameMain.getD 8 0 * 256 + exFrameMain.getD 9 0 : ℕ) : ℚ) / 100)
        (((exFrameMain.getD 10 0 * 256 + exFrameMain.getD 11 0 : ℕ) : ℚ) / 100)) ∧
    gear_map 0 = "High" ∧ gear_map 1 = "Mid" ∧
    gear_map 2 = "Low" ∧ gear_map 3 = "Mid" ∧
    current_magnitude 100 0 = Real.sqrt ((100 : ℝ) ^ 2 + (0 : ℝ) ^ 2) ∧
    (analyze_packet exFrameMain).checksumOk = true ∧
    (analyze_packet exFrameMain).parsedOf =
      some (ParsedData.main 1 "Mid" 5000 100 0) := by
  have h := type0_decode exFrameMain 100 0 (by decide) (by decide) (by decide)
    (by decide)
  exact_mod_cast h

/-! ## C8: currents are non-negative; the sign-flip branch is unreachable -/

/-- C8: iq and id are quotients of unsigned 16-bit values by 100 and
hence non-negative, so the `if iq < 0 or id < 0` branch of the type-0
power computation can never be taken, the computed power is
`-currentMagnitude * voltage`, and it is nonpositive whenever the stored
voltage is non-negative. -/
theorem currents_nonneg_power_nonpos (data : List ℕ) (v : ℚ) (hv : 0 ≤ v) :
    0 ≤ iq_current data ∧ 0 ≤ id_current data ∧
    ¬ (iq_current data < 0 ∨ id_current data < 0) ∧
    type0_power data v =
      -(current_magnitude (iq_current data) (id_current data)) * (v : ℝ) ∧
    type0_power data v ≤ 0 := by
  have h1 : 0 ≤ iq_current data := by unfold iq_current; positivity
  have h2 : 0 ≤ id_current data := by unfold id_current; positivity
  have h3 : ¬ (iq_current data < 0 ∨ id_current data < 0) := by
    rintro (h | h) <;> linarith
  have hm : 0 ≤ current_magnitude (iq_current data) (id_current data) := by
    unfold current_magnitude; exact Real.sqrt_nonneg _
  have h4 : type0_power data v =
      -(current_magnitude (iq_current data) (id_current data)) * (v : ℝ) := by
    simp only [type0_power]
    rw [if_neg h3]
  refine ⟨h1, h2, h3, h4, ?_⟩
  rw [h4, neg_mul]
  have hv2 : (0 : ℝ) ≤ (v : ℝ) := by exact_mod_cast hv
  exact neg_nonpos.mpr (mul_nonneg hm hv2)

/-- Witness for C8 at the example frame with a 48 V store. -/
theorem currents_nonneg_power_nonpos_witness :
    0 ≤ iq_current exFrameMain ∧ 0 ≤ id_current exFrameMain ∧
    ¬ (iq_current exFrameMain < 0 ∨ id_current exFrameMain < 0) ∧
    type0_power exFrameMain 48 =
      -(current_magnitude (iq_current exFrameMain) (id_current exFrameMain)) *
        ((48 : ℚ) : ℝ) ∧
    type0_power exFrameMain 48 ≤ 0 :=
  currents_nonneg_power_nonpos exFrameMain 48 (by norm_num)

/-! ## C4: length guard is `< 16`, not `≠ 16` -/

/-- Counterexample to C4 as stated: a 17-byte input whose first byte is
0xAA passes the `len(data) < 16` guard and is decoded as a packet, so a
byte sequence of length ≠ 16 does not always fail with a bad-length
error. -/
theorem badLength_counterexample :
    exFrame17.length = 17 ∧ (analyze_packet exFrame17).isPacket = true := by
  exact ⟨by decide, by decide⟩

/-- C4 amended: for every byte sequence shorter than 16 bytes, both the
inspector and the handler reject it with a bad-length error before any
per-type decoding, and the handler only counts a packet error; sequences
of length 16 or more pass the length guard. -/
theorem badLength_short (data : List ℕ) (d : ControllerData) (conn : Bool)
    (t : ℚ) (h : data.length < 16) :
    analyze_packet data = .invalid (.badLength data.length) ∧
    message_handler data t d conn =
      ({ d with packet_errors := d.packet_errors + 1 }, conn) := by
  constructor
  · unfold analyze_packet
    rw [if_pos h]
  · unfold message_handler
    rw [if_pos h]

/-- Witness for the amended C4 at a 3-byte input. -/
theorem badLength_short_witness :
    analyze_packet exFrameShort = .invalid (.badLength exFrameShort.length) ∧
    message_handler exFrameShort 0 (ControllerData.init 0) false =
      ({ ControllerData.init 0 with
          packet_errors := (ControllerData.init 0).packet_errors + 1 }, false) :=
  badLength_short exFrameShort (ControllerData.init 0) false 0 (by decide)

/-! ## Update machinery lemmas -/

/-- A missing shadow entry always triggers an update. -/
theorem willChange_none {α : Type} [DecidableEq α] (v : α) :
    willChange (none : Option α) v = true := rfl

/-- A shadow entry equal to the incoming value never triggers an update. -/
theorem willChange_some_self {α : Type} [DecidableEq α] (v : α) :
    willChange (some v) v = false := by
  simp [willChange]

/-- The update condition is false exactly when the shadow already holds
the incoming value. -/
theorem willChange_eq_false {α : Type} [DecidableEq α] {sh : Option α} {v : α} :
    willChange sh v = false ↔ sh = some v := by
  cases sh <;> simp [willChange]

/-- When the shadow dict already holds the incoming value, `update_value`
is a complete no-op on the store. -/
theorem update_value_noop {α : Type} [DecidableEq α] (L : FieldLens α) (v : α)
    (t : ℚ) (d : ControllerData) (h : L.getSh d = some v) :
    update_value L v t d = d := by
  unfold update_value
  rw [h, willChange_some_self]
  rfl

/-- Explicit characterization of the `rpm` key update. -/
theorem update_rpm_char (v : ℕ) (t : ℚ) (d : ControllerData) :
    update_value rpmLens v t d =
      if willChange d.sh_rpm v then
        { d with rpm := v, sh_rpm := some v, has_changes_flag := true,
                 last_update := t,
                 recorded := if d.recording then d.recorded + 1 else d.recorded }
      else d := rfl

/-- Explicit characterization of the `gear` key update. -/
theorem update_gear_char (v : ℕ) (t : ℚ) (d : ControllerData) :
    update_value gearLens v t d =
      if willChange d.sh_gear v then
        { d with gear := v, sh_gear := some v, has_changes_flag := true,
                 last_update := t,
                 recorded := if d.recording then d.recorded + 1 else d.recorded }
      else d := rfl

/-- Explicit characterization of the `throttle` key update. -/
theorem update_throttle_char (v : ℕ) (t : ℚ) (d : ControllerData) :
    update_value throttleLens v t d =
      if willChange d.sh_throttle v then
        { d with throttle := v, sh_throttle := some v, has_changes_flag := true,
                 last_update := t,
                 recorded := if d.recording then d.recorded + 1 else d.recorded }
      else d := rfl

/-- Explicit characterization of the `controller_temp` key update. -/
theorem update_controller_temp_char (v : ℕ) (t : ℚ) (d : ControllerData) :
    update_value controllerTempLens v t d =
      if willChange d.sh_controller_temp v then
        { d with controller_temp := v, sh_controller_temp := some v,
                 has_changes_flag := true, last_update := t,
                 recorded := if d.recording then d.recorded + 1 else d.recorded }
      else d := rfl

/-- Explicit characterization of the `motor_temp` key update. -/
theorem update_motor_temp_char (v : ℕ) (t : ℚ) (d : ControllerData) :
    update_value motorTempLens v t d =
      if willChange d.sh_motor_temp v then
        { d with motor_temp := v, sh_motor_temp := some v,
                 has_changes_flag := true, last_update := t,
                 recorded := if d.recording then d.recorded + 1 else d.recorded }
      else d := rfl

/-- Explicit characterization of the `speed` key update. -/
theorem update_speed_char (v : ℚ) (t : ℚ) (d : ControllerData) :
    update_value speedLens v t d =
      if willChange d.sh_speed v then
        { d with speed := v, sh_speed := some v, has_changes_flag := true,
                 last_update := t,
                 recorded := if d.recording then d.recorded + 1 else d.recorded }
      else d := rfl

/-- Explicit characterization of the `voltage` key update. -/
theorem update_voltage_char (v : ℚ) (t : ℚ) (d : ControllerData) :
    update_value voltageLens v t d =
      if willChange d.sh_voltage v then
        { d with voltage := v, sh_voltage := some v, has_changes_flag := true,
                 last_update := t,
                 recorded := if d.recording then d.recorded + 1 else d.recorded }
      else d := rfl

/-- Explicit characterization of the `power` key update. -/
theorem update_power_char (v : ℝ) (t : ℚ) (d : ControllerData) :
    update_value powerLens v t d =
      if willChange d.sh_power v then
        { d with power := v, sh_power := some v, has_changes_flag := true,
                 last_update := t,
                 recorded := if d.recording then d.recorded + 1 else d.recorded }
      else d := rfl

/-- Updating the `rpm` key leaves the shadow holding the written value. -/
theorem update_rpm_sh_after (v : ℕ) (t : ℚ) (d : ControllerData) :
    (update_value rpmLens v t d).sh_rpm = some v := by
  rw [update_rpm_char]
  by_cases hc : willChange d.sh_rpm v = true
  · rw [if_pos hc]
  · rw [if_neg hc]
    exact willChange_eq_false.mp (Bool.eq_false_iff.mpr hc)

/-- Updating the `gear` key leaves the shadow holding the written value. -/
theorem update_gear_sh_after (v : ℕ) (t : ℚ) (d : ControllerData) :
    (update_value gearLens v t d).sh_gear = some v := by
  rw [update_gear_char]
  by_cases hc : willChange d.sh_gear v = true
  · rw [if_pos hc]
  · rw [if_neg hc]
    exact willChange_eq_false.mp (Bool.eq_false_iff.mpr hc)

/-- Updating the `power` key leaves the shadow holding the written value. -/
theorem update_power_sh_after (v : ℝ) (t : ℚ) (d : ControllerData) :
    (update_value powerLens v t d).sh_power = some v := by
  rw [update_power_char]
  by_cases hc : willChange d.sh_power v = true
  · rw [if_pos hc]
  · rw [if_neg hc]
    exact willChange_eq_false.mp (Bool.eq_false_iff.mpr hc)

/-- Updating the `speed` key leaves the shadow holding the written value. -/
theorem update_speed_sh_after (v : ℚ) (t : ℚ) (d : ControllerData) :
    (update_value speedLens v t d).sh_speed = some v := by
  rw [update_speed_char]
  by_cases hc : willChange d.sh_speed v = true
  · rw [if_pos hc]
  · rw [if_neg hc]
    exact willChange_eq_false.mp (Bool.eq_false_iff.mpr hc)

/-- An `rpm` update touches no other telemetry field or shadow slot. -/
theorem update_rpm_pres (v : ℕ) (t : ℚ) (d : ControllerData) :
    (update_value rpmLens v t d).gear = d.gear ∧
    (update_value rpmLens v t d).power = d.power ∧
    (update_value rpmLens v t d).speed = d.speed ∧
    (update_value rpmLens v t d).voltage = d.voltage ∧
    (update_value rpmLens v t d).sh_gear = d.sh_gear ∧
    (update_value rpmLens v t d).sh_power = d.sh_power ∧
    (update_value rpmLens v t d).sh_speed = d.sh_speed ∧
    (update_value rpmLens v t d).recording = d.recording := by
  rw [update_rpm_char]
  split_ifs <;> exact ⟨rfl, rfl, rfl, rfl, rfl, rfl, rfl, rfl⟩

/-- A `gear` update touches no other telemetry field or shadow slot. -/
theorem update_gear_pres (v : ℕ) (t : ℚ) (d : ControllerData) :
    (update_value gearLens v t d).rpm = d.rpm ∧
    (update_value gearLens v t d).power = d.power ∧
    (update_value gearLens v t d).speed = d.speed ∧
    (update_value gearLens v t d).voltage = d.voltage ∧
    (update_value gearLens v t d).sh_rpm = d.sh_rpm ∧
    (update_value gearLens v t d).sh_power = d.sh_power ∧
    (update_value gearLens v t d).sh_speed = d.sh_speed ∧
    (update_value gearLens v t d).recording = d.recording := by
  rw [update_gear_char]
  split_ifs <;> exact ⟨rfl, rfl, rfl, rfl, rfl, rfl, rfl, rfl⟩

/-- A `power` update touches no other telemetry field or shadow slot. -/
theorem update_power_pres (v : ℝ) (t : ℚ) (d : ControllerData) :
    (update_value powerLens v t d).rpm = d.rpm ∧
    (update_value powerLens v t d).gear = d.gear ∧
    (update_value powerLens v t d).speed = d.speed ∧
    (update_value powerLens v t d).voltage = d.voltage ∧
    (update_value powerLens v t d).sh_rpm = d.sh_rpm ∧
    (update_value powerLens v t d).sh_gear = d.sh_gear ∧
    (update_value powerLens v t d).sh_speed = d.sh_speed ∧
    (update_value powerLens v t d).recording = d.recording := by
  rw [update_power_char]
  split_ifs <;> exact ⟨rfl, rfl, rfl, rfl, rfl, rfl, rfl, rfl⟩

/-- A `speed` update touches no other telemetry field or shadow slot. -/
theorem update_speed_pres (v : ℚ) (t : ℚ) (d : ControllerData) :
    (update_value speedLens v t d).rpm = d.rpm ∧
    (update_value speedLens v t d).gear = d.gear ∧
    (update_value speedLens v t d).power = d.power ∧
    (update_value speedLens v t d).voltage = d.voltage ∧
    (update_value speedLens v t d).sh_rpm = d.sh_rpm ∧
    (update_value speedLens v t d).sh_gear = d.sh_gear ∧
    (update_value speedLens v t d).sh_power = d.sh_power ∧
    (update_value speedLens v t d).recording = d.recording := by
  rw [update_speed_char]
  split_ifs <;> exact ⟨rfl, rfl, rfl, rfl, rfl, rfl, rfl, rfl⟩

/-- A raised change flag survives a `gear` update. -/
theorem update_gear_flag_mono (v : ℕ) (t : ℚ) {d : ControllerData}
    (h : d.has_changes_flag = true) :
    (update_value gearLens v t d).has_changes_flag = true := by
  rw [update_gear_char]; split_ifs <;> first | rfl | exact h

/-- A raised change flag survives a `power` update. -/
theorem update_power_flag_mono (v : ℝ) (t : ℚ) {d : ControllerData}
    (h : d.has_changes_flag = true) :
    (update_value powerLens v t d).has_changes_flag = true := by
  rw [update_power_char]; split_ifs <;> first | rfl | exact h

/-- A raised change flag survives a `speed` update. -/
theorem update_speed_flag_mono (v : ℚ) (t : ℚ) {d : ControllerData}
    (h : d.has_changes_flag = true) :
    (update_value speedLens v t d).has_changes_flag = true := by
  rw [update_speed_char]; split_ifs <;> first | rfl | exact h

/-- After a type-0 application every updated key's shadow holds the value
just computed, and the voltage and recording state are untouched. -/
theorem handle_type0_state (data : List ℕ) (t : ℚ) (d : ControllerData) :
    (handle_type0 data t d).sh_rpm = some (rpm_raw data) ∧
    (handle_type0 data t d).sh_gear = some (gear_clamped data) ∧
    (handle_type0 data t d).sh_power = some (type0_power data d.voltage) ∧
    (handle_type0 data t d).sh_speed = some (type0_speed data) ∧
    (handle_type0 data t d).voltage = d.voltage ∧
    (handle_type0 data t d).recording = d.recording := by
  unfold handle_type0
  obtain ⟨-, -, -, g4, g5, -, g7, g8⟩ := update_gear_pres (gear_clamped data) t
    (update_value rpmLens (rpm_raw data) t d)
  obtain ⟨-, -, -, p4, p5, p6, p7, p8⟩ := update_power_pres
    (type0_power data d.voltage) t
    (update_value gearLens (gear_clamped data) t
      (update_value rpmLens (rpm_raw data) t d))
  obtain ⟨-, -, -, s4, s5, s6, s7, s8⟩ := update_speed_pres (type0_speed data) t
    (update_value powerLens (type0_power data d.voltage) t
      (update_value gearLens (gear_clamped data) t
        (update_value rpmLens (rpm_raw data) t d)))
  obtain ⟨-, -, -, r4, -, -, -, r8⟩ := update_rpm_pres (rpm_raw data) t d
  refine ⟨?_, ?_, ?_, ?_, ?_, ?_⟩
  · rw [s5, p5, g5, update_rpm_sh_after]
  · rw [s6, p6, update_gear_sh_after]
  · rw [s7, update_power_sh_after]
  · rw [update_speed_sh_after]
  · rw [s4, p4, g4, r4]
  · rw [s8, p8, g8, r8]

/-- A type-0 application whose four computed values are already shadowed
is the identity on the store. -/
theorem handle_type0_noop (data : List ℕ) (t : ℚ) (d : ControllerData)
    (h1 : d.sh_rpm = some (rpm_raw data))
    (h2 : d.sh_gear = some (gear_clamped data))
    (h3 : d.sh_power = some (type0_power data d.voltage))
    (h4 : d.sh_speed = some (type0_speed data)) :
    handle_type0 data t d = d := by
  unfold handle_type0
  rw [update_value_noop rpmLens _ _ _ h1, update_value_noop gearLens _ _ _ h2,
    update_value_noop powerLens _ _ _ h3, update_value_noop speedLens _ _ _ h4]

/-- A type-0 application on a store whose rpm key has never been written
raises the change flag. -/
theorem handle_type0_flag (data : List ℕ) (t : ℚ) (d : ControllerData)
    (h : d.sh_rpm = none) :
    (handle_type0 data t d).has_changes_flag = true := by
  unfold handle_type0
  apply update_speed_flag_mono
  apply update_power_flag_mono
  apply update_gear_flag_mono
  rw [update_rpm_char, h, willChange_none, if_pos rfl]

/-- With the `rpm` shadow in sync with the field, an `rpm` update leaves
the field holding the incoming value whether or not it fired. -/
theorem update_rpm_field (v : ℕ) (t : ℚ) (d : ControllerData)
    (h : d.sh_rpm = none ∨ d.sh_rpm = some d.rpm) :
    (update_value rpmLens v t d).rpm = v := by
  rw [update_rpm_char]
  by_cases hc : willChange d.sh_rpm v = true
  · rw [if_pos hc]
  · rw [if_neg hc]
    have hs : d.sh_rpm = some v := willChange_eq_false.mp (Bool.eq_false_iff.mpr hc)
    rcases h with h | h
    · rw [h] at hs; exact Option.noConfusion hs
    · exact Option.some.inj (h.symm.trans hs)

/-- With the `gear` shadow in sync with the field, a `gear` update leaves
the field holding the incoming value whether or not it fired. -/
theorem update_gear_field (v : ℕ) (t : ℚ) (d : ControllerData)
    (h : d.sh_gear = none ∨ d.sh_gear = some d.gear) :
    (update_value gearLens v t d).gear = v := by
  rw [update_gear_char]
  by_cases hc : willChange d.sh_gear v = true
  · rw [if_pos hc]
  · rw [if_neg hc]
    have hs : d.sh_gear = some v := willChange_eq_false.mp (Bool.eq_false_iff.mpr hc)
    rcases h with h | h
    · rw [h] at hs; exact Option.noConfusion hs
    · exact Option.some.inj (h.symm.trans hs)

/-- With the `power` shadow in sync with the field, a `power` update
leaves the field holding the incoming value whether or not it fired. -/
theorem update_power_field (v : ℝ) (t : ℚ) (d : ControllerData)
    (h : d.sh_power = none ∨ d.sh_power = some d.power) :
    (update_value powerLens v t d).power = v := by
  rw [update_power_char]
  by_cases hc : willChange d.sh_power v = true
  · rw [if_pos hc]
  · rw [if_neg hc]
    have hs : d.sh_power = some v := willChange_eq_false.mp (Bool.eq_false_iff.mpr hc)
    rcases h with h | h
    · rw [h] at hs; exact Option.noConfusion hs
    · exact Option.some.inj (h.symm.trans hs)

/-- With the `speed` shadow in sync with the field, a `speed` update
leaves the field holding the incoming value whether or not it fired. -/
theorem update_speed_field (v : ℚ) (t : ℚ) (d : ControllerData)
    (h : d.sh_speed = none ∨ d.sh_speed = some d.speed) :
    (update_value speedLens v t d).speed = v := by
  rw [update_speed_char]
  by_cases hc : willChange d.sh_speed v = true
  · rw [if_pos hc]
  · rw [if_neg hc]
    have hs : d.sh_speed = some v := willChange_eq_false.mp (Bool.eq_false_iff.mpr hc)
    rcases h with h | h
    · rw [h] at hs; exact Option.noConfusion hs
    · exact Option.some.inj (h.symm.trans hs)

/-! ## C3: type-0 application to the telemetry store -/

/-- C3: applying a decoded type-0 packet to a store whose shadow dict is
in sync with its fields updates rpm to the frame's rpm, gear to the
clamped value in [1,3], power to `-currentMagnitude * currentVoltage`
(sign flipped when iq or id is negative), and speed to
`(rpm/4) * 1.350 * 0.06`. -/
theorem type0_store_update (data : List ℕ) (t : ℚ) (d : ControllerData)
    (h1 : d.sh_rpm = none ∨ d.sh_rpm = some d.rpm)
    (h2 : d.sh_gear = none ∨ d.sh_gear = some d.gear)
    (h3 : d.sh_power = none ∨ d.sh_power = some d.power)
    (h4 : d.sh_speed = none ∨ d.sh_speed = some d.speed) :
    (handle_type0 data t d).rpm = rpm_raw data ∧
    (handle_type0 data t d).gear = gear_clamped data ∧
    1 ≤ (handle_type0 data t d).gear ∧ (handle_type0 data t d).gear ≤ 3 ∧
    (handle_type0 data t d).power = type0_power data d.voltage ∧
    (¬ (iq_current data < 0 ∨ id_current data < 0) →
      type0_power data d.voltage =
        -(current_magnitude (iq_current data) (id_current data)) *
          (d.voltage : ℝ)) ∧
    ((iq_current data < 0 ∨ id_current data < 0) →
      type0_power data d.voltage =
        (current_magnitude (iq_current data) (id_current data)) *
          (d.voltage : ℝ)) ∧
    (handle_type0 data t d).speed =
      (rpm_raw data : ℚ) / 4 * (1350 / 1000) * (6 / 100) := by
  obtain ⟨r1, r2, r3, r4, r5, r6, r7, r8⟩ := update_rpm_pres (rpm_raw data) t d
  obtain ⟨g1, g2, g3, g4, g5, g6, g7, g8⟩ := update_gear_pres (gear_clamped data) t
    (update_value rpmLens (rpm_raw data) t d)
  obtain ⟨p1, p2, p3, p4, p5, p6, p7, p8⟩ := update_power_pres
    (type0_power data d.voltage) t
    (update_value gearLens (gear_clamped data) t
      (update_value rpmLens (rpm_raw data) t d))
  obtain ⟨s1, s2, s3, s4, s5, s6, s7, s8⟩ := update_speed_pres (type0_speed data) t
    (update_value powerLens (type0_power data d.voltage) t
      (update_value gearLens (gear_clamped data) t
        (update_value rpmLens (rpm_raw data) t d)))
  unfold handle_type0
  refine ⟨?_, ?_, ?_, ?_, ?_, ?_, ?_, ?_⟩
  · rw [s1, p1, g1, update_rpm_field _ _ _ h1]
  · rw [s2, p2, update_gear_field _ _ _ (by rw [r5, r1]; exact h2)]
  · rw [s2, p2, update_gear_field _ _ _ (by rw [r5, r1]; exact h2)]
    unfold gear_clamped; omega
  · rw [s2, p2, update_gear_field _ _ _ (by rw [r5, r1]; exact h2)]
    unfold gear_clamped; omega
  · rw [s3, update_power_field _ _ _ (by rw [g6, r6, g2, r2]; exact h3)]
  · intro hneg
    simp only [type0_power]
    rw [if_neg hneg]
  · intro hpos
    simp only [type0_power]
    rw [if_pos hpos, neg_mul, neg_neg]
  · rw [update_speed_field _ _ _ (by rw [p7, g7, r7, p3, g3, r3]; exact h4)]
    rfl

/-- Witness for C3 at the example frame and a fully synced store. -/
theorem type0_store_update_witness :
    (handle_type0 exFrameMain 11 exStore).rpm = rpm_raw exFrameMain ∧
    (handle_type0 exFrameMain 11 exStore).gear = gear_clamped exFrameMain ∧
    1 ≤ (handle_type0 exFrameMain 11 exStore).gear ∧
    (handle_type0 exFrameMain 11 exStore).gear ≤ 3 ∧
    (handle_type0 exFrameMain 11 exStore).power =
      type0_power exFrameMain exStore.voltage ∧
    (¬ (iq_current exFrameMain < 0 ∨ id_current exFrameMain < 0) →
      type0_power exFrameMain exStore.voltage =
        -(current_magnitude (iq_current exFrameMain) (id_current exFrameMain)) *
          (exStore.voltage : ℝ)) ∧
    ((iq_current exFrameMain < 0 ∨ id_current exFrameMain < 0) →
      type0_power exFrameMain exStore.voltage =
        (current_magnitude (iq_current exFrameMain) (id_current exFrameMain)) *
          (exStore.voltage : ℝ)) ∧
    (handle_type0 exFrameMain 11 exStore).speed =
      (rpm_raw exFrameMain : ℚ) / 4 * (1350 / 1000) * (6 / 100) :=
  type0_store_update exFrameMain 11 exStore (Or.inr rfl) (Or.inr rfl)
    (Or.inr rfl) (Or.inr rfl)

/-! ## C5: compare-and-set updates and idempotent double application -/

/-- C5: every telemetry key update is a compare-and-set — it writes the
field and shadow, raises the change flag, refreshes `last_update`, and
adds a recorder row (when recording) exactly when the incoming value
differs from the shadowed one, and is a complete no-op otherwise;
`has_changes` returns the flag and clears it, so at most one consumer
sees true; consequently applying the same type-0 packet twice, consuming
the flag in between, reports a change the first time and none the
second. -/
theorem update_value_cas (d : ControllerData) (t t1 t2 : ℚ) (vn : ℕ) (vq : ℚ)
    (vr : ℝ) (data : List ℕ) (hflag : d.has_changes_flag = false)
    (hfresh : d.sh_rpm = none) :
    (update_value throttleLens vn t d =
      if willChange d.sh_throttle vn then
        { d with throttle := vn, sh_throttle := some vn,
                 has_changes_flag := true, last_update := t,
                 recorded := if d.recording then d.recorded + 1 else d.recorded }
      else d) ∧
    (update_value gearLens vn t d =
      if willChange d.sh_gear vn then
        { d with gear := vn, sh_gear := some vn, has_changes_flag := true,
                 last_update := t,
                 recorded := if d.recording then d.recorded + 1 else d.recorded }
      else d) ∧
    (update_value rpmLens vn t d =
      if willChange d.sh_rpm vn then
        { d with rpm := vn, sh_rpm := some vn, has_changes_flag := true,
                 last_update := t,
                 recorded := if d.recording then d.recorded + 1 else d.recorded }
      else d) ∧
    (update_value controllerTempLens vn t d =
      if willChange d.sh_controller_temp vn then
        { d with controller_temp := vn, sh_controller_temp := some vn,
                 has_changes_flag := true, last_update := t,
                 recorded := if d.recording then d.recorded + 1 else d.recorded }
      else d) ∧
    (update_value motorTempLens vn t d =
      if willChange d.sh_motor_temp vn then
        { d with motor_temp := vn, sh_motor_temp := some vn,
                 has_changes_flag := true, last_update := t,
                 recorded := if d.recording then d.recorded + 1 else d.recorded }
      else d) ∧
    (update_value speedLens vq t d =
      if willChange d.sh_speed vq then
        { d with speed := vq, sh_speed := some vq, has_changes_flag := true,
                 last_update := t,
                 recorded := if d.recording then d.recorded + 1 else d.recorded }
      else d) ∧
    (update_value voltageLens vq t d =
      if willChange d.sh_voltage vq then
        { d with voltage := vq, sh_voltage := some vq,
                 has_changes_flag := true, last_update := t,
                 recorded := if d.recording then d.recorded + 1 else d.recorded }
      else d) ∧
    (update_value powerLens vr t d =
      if willChange d.sh_power vr then
        { d with power := vr, sh_power := some vr, has_changes_flag := true,
                 last_update := t,
                 recorded := if d.recording then d.recorded + 1 else d.recorded }
      else d) ∧
    (d.sh_voltage = some vq → update_value voltageLens vq t d = d) ∧
    (d.consume_changes = (d.has_changes_flag, { d with has_changes_flag := false })) ∧
    ((d.consume_changes.2).consume_changes.1 = false) ∧
    (d.consume_changes.1 = false) ∧
    ((handle_type0 data t1 d).consume_changes.1 = true) ∧
    (handle_type0 data t2 ((handle_type0 data t1 d).consume_changes.2) =
      (handle_type0 data t1 d).consume_changes.2) ∧
    ((handle_type0 data t2
        ((handle_type0 data t1 d).consume_changes.2)).consume_changes.1 = false) := by
  obtain ⟨s1, s2, s3, s4, s5, s6⟩ := handle_type0_state data t1 d
  have hvolt : ((handle_type0 data t1 d).consume_changes.2).voltage = d.voltage := s5
  have hsecond : handle_type0 data t2 ((handle_type0 data t1 d).consume_changes.2) =
      (handle_type0 data t1 d).consume_changes.2 := by
    apply handle_type0_noop
    · exact s1
    · exact s2
    · rw [hvolt]; exact s3
    · exact s4
  refine ⟨update_throttle_char vn t d, update_gear_char vn t d,
    update_rpm_char vn t d, update_controller_temp_char vn t d,
    update_motor_temp_char vn t d, update_speed_char vq t d,
    update_voltage_char vq t d, update_power_char vr t d,
    fun h => update_value_noop voltageLens vq t d h, rfl, rfl, hflag,
    ?_, hsecond, ?_⟩
  · show (handle_type0 data t1 d).has_changes_flag = true
    exact handle_type0_flag data t1 d hfresh
  · rw [hsecond]
    rfl

/-- Witness for C5 starting from the freshly initialized store. -/
theorem update_value_cas_witness :
    (update_value throttleLens 5 1 (ControllerData.init 0) =
      if willChange (ControllerData.init 0).sh_throttle 5 then
        { ControllerData.init 0 with throttle := 5, sh_throttle := some 5, has_changes_flag := true, last_update := 1, recorded := if (ControllerData.init 0).recording then (ControllerData.init 0).recorded + 1 else (ControllerData.init 0).recorded }
      else ControllerData.init 0) ∧
    (update_value gearLens 5 1 (ControllerData.init 0) =
      if willChange (ControllerData.init 0).sh_gear 5 then
        { ControllerData.init 0 with gear := 5, sh_gear := some 5, has_changes_flag := true, last_update := 1, recorded := if (ControllerData.init 0).recording then (ControllerData.init 0).recorded + 1 else (ControllerData.init 0).recorded }
      else ControllerData.init 0) ∧
    (update_value rpmLens 5 1 (ControllerData.init 0) =
      if willChange (ControllerData.init 0).sh_rpm 5 then
        { ControllerData.init 0 with rpm := 5, sh_rpm := some 5, has_changes_flag := true, last_update := 1, recorded := if (ControllerData.init 0).recording then (ControllerData.init 0).recorded + 1 else (ControllerData.init 0).recorded }
      else ControllerData.init 0) ∧
    (update_value controllerTempLens 5 1 (ControllerData.init 0) =
      if willChange (ControllerData.init 0).sh_controller_temp 5 then
        { ControllerData.init 0 with controller_temp := 5, sh_controller_temp := some 5, has_changes_flag := true, last_update := 1, recorded := if (ControllerData.init 0).recording then (ControllerData.init 0).recorded + 1 else (ControllerData.init 0).recorded }
      else ControllerData.init 0) ∧
    (update_value motorTempLens 5 1 (ControllerData.init 0) =
      if willChange (ControllerData.init 0).sh_motor_temp 5 then
        { ControllerData.init 0 with motor_temp := 5, sh_motor_temp := some 5, has_changes_flag := true, last_update := 1, recorded := if (ControllerData.init 0).recording then (ControllerData.init 0).recorded + 1 else (ControllerData.init 0).recorded }
      else ControllerData.init 0) ∧
    (update_value speedLens 7 1 (ControllerData.init 0) =
      if willChange (ControllerData.init 0).sh_speed 7 then
        { ControllerData.init 0 with speed := 7, sh_speed := some 7, has_changes_flag := true, last_update := 1, recorded := if (ControllerData.init 0).recording then (ControllerData.init 0).recorded + 1 else (ControllerData.init 0).recorded }
      else ControllerData.init 0) ∧
    (update_value voltageLens 7 1 (ControllerData.init 0) =
      if willChange (ControllerData.init 0).sh_voltage 7 then
        { ControllerData.init 0 with voltage := 7, sh_voltage := some 7, has_changes_flag := true, last_update := 1, recorded := if (ControllerData.init 0).recording then (ControllerData.init 0).recorded + 1 else (ControllerData.init 0).recorded }
      else ControllerData.init 0) ∧
    (update_value powerLens 0 1 (ControllerData.init 0) =
      if willChange (ControllerData.init 0).sh_power 0 then
        { ControllerData.init 0 with power := 0, sh_power := some 0, has_changes_flag := true, last_update := 1, recorded := if (ControllerData.init 0).recording then (ControllerData.init 0).recorded + 1 else (ControllerData.init 0).recorded }
      else ControllerData.init 0) ∧
    ((ControllerData.init 0).sh_voltage = some 7 →
      update_value voltageLens 7 1 (ControllerData.init 0) = ControllerData.init 0) ∧
    ((ControllerData.init 0).consume_changes =
      ((ControllerData.init 0).has_changes_flag,
        { ControllerData.init 0 with has_changes_flag := false })) ∧
    (((ControllerData.init 0).consume_changes.2).consume_changes.1 = false) ∧
    ((ControllerData.init 0).consume_changes.1 = false) ∧
    ((handle_type0 exFrameMain 2 (ControllerData.init 0)).consume_changes.1 = true) ∧
    (handle_type0 exFrameMain 3
        ((handle_type0 exFrameMain 2 (ControllerData.init 0)).consume_changes.2) =
      (handle_type0 exFrameMain 2 (ControllerData.init 0)).consume_changes.2) ∧
    ((handle_type0 exFrameMain 3
        ((handle_type0 exFrameMain 2
          (ControllerData.init 0)).consume_changes.2)).consume_changes.1 = false) :=
  update_value_cas (ControllerData.init 0) 1 2 3 5 7 0 exFrameMain rfl rfl

/-! ## C10: disconnected reset bypasses the shadow map -/

/-- C10: the disconnected-state reset zeroes every telemetry field while
leaving the `_last_values` shadow dict and the change flag untouched;
consequently, when the shadow holds the pre-reset value of a field and a
packet then decodes that same value, the update is a complete no-op and
the field stays zero instead of taking the decoded value. -/
theorem reset_shadow_stale (d : ControllerData) (t : ℚ)
    (h1 : d.sh_throttle = some d.throttle)
    (h2 : d.sh_gear = some d.gear)
    (h3 : d.sh_rpm = some d.rpm)
    (h4 : d.sh_controller_temp = some d.controller_temp)
    (h5 : d.sh_motor_temp = some d.motor_temp)
    (h6 : d.sh_speed = some d.speed)
    (h7 : d.sh_power = some d.power)
    (h8 : d.sh_voltage = some d.voltage) :
    (reset_disconnected d).has_changes_flag = d.has_changes_flag ∧
    (reset_disconnected d).sh_throttle = d.sh_throttle ∧
    (reset_disconnected d).sh_gear = d.sh_gear ∧
    (reset_disconnected d).sh_rpm = d.sh_rpm ∧
    (reset_disconnected d).sh_controller_temp = d.sh_controller_temp ∧
    (reset_disconnected d).sh_motor_temp = d.sh_motor_temp ∧
    (reset_disconnected d).sh_speed = d.sh_speed ∧
    (reset_disconnected d).sh_power = d.sh_power ∧
    (reset_disconnected d).sh_voltage = d.sh_voltage ∧
    (reset_disconnected d).throttle = 0 ∧
    (reset_disconnected d).gear = 0 ∧
    (reset_disconnected d).rpm = 0 ∧
    (reset_disconnected d).controller_temp = 0 ∧
    (reset_disconnected d).motor_temp = 0 ∧
    (reset_disconnected d).speed = 0 ∧
    (reset_disconnected d).power = 0 ∧
    (reset_disconnected d).voltage = 0 ∧
    update_value throttleLens d.throttle t (reset_disconnected d) = reset_disconnected d ∧
    update_value gearLens d.gear t (reset_disconnected d) = reset_disconnected d ∧
    update_value rpmLens d.rpm t (reset_disconnected d) = reset_disconnected d ∧
    update_value controllerTempLens d.controller_temp t (reset_disconnected d) = reset_disconnected d ∧
    update_value motorTempLens d.motor_temp t (reset_disconnected d) = reset_disconnected d ∧
    update_value speedLens d.speed t (reset_disconnected d) = reset_disconnected d ∧
    update_value powerLens d.power t (reset_disconnected d) = reset_disconnected d ∧
    update_value voltageLens d.voltage t (reset_disconnected d) = reset_disconnected d := by
  refine ⟨rfl, rfl, rfl, rfl, rfl, rfl, rfl, rfl, rfl,
    rfl, rfl, rfl, rfl, rfl, rfl, rfl, rfl, ?_, ?_, ?_, ?_, ?_, ?_, ?_, ?_⟩
  · exact update_value_noop throttleLens _ _ _ h1
  · exact update_value_noop gearLens _ _ _ h2
  · exact update_value_noop rpmLens _ _ _ h3
  · exact update_value_noop controllerTempLens _ _ _ h4
  · exact update_value_noop motorTempLens _ _ _ h5
  · exact update_value_noop speedLens _ _ _ h6
  · exact update_value_noop powerLens _ _ _ h7
  · exact update_value_noop voltageLens _ _ _ h8

/-- Witness for C10 at a concrete synced store with nonzero values. -/
theorem reset_shadow_stale_witness :
    (reset_disconnected exStore).has_changes_flag = exStore.has_changes_flag ∧
    (reset_disconnected exStore).sh_throttle = exStore.sh_throttle ∧
    (reset_disconnected exStore).sh_gear = exStore.sh_gear ∧
    (reset_disconnected exStore).sh_rpm = exStore.sh_rpm ∧
    (reset_disconnected exStore).sh_controller_temp = exStore.sh_controller_temp ∧
    (reset_disconnected exStore).sh_motor_temp = exStore.sh_motor_temp ∧
    (reset_disconnected exStore).sh_speed = exStore.sh_speed ∧
    (reset_disconnected exStore).sh_power = exStore.sh_power ∧
    (reset_disconnected exStore).sh_voltage = exStore.sh_voltage ∧
    (reset_disconnected exStore).throttle = 0 ∧
    (reset_disconnected exStore).gear = 0 ∧
    (reset_disconnected exStore).rpm = 0 ∧
    (reset_disconnected exStore).controller_temp = 0 ∧
    (reset_disconnected exStore).motor_temp = 0 ∧
    (reset_disconnected exStore).speed = 0 ∧
    (reset_disconnected exStore).power = 0 ∧
    (reset_disconnected exStore).voltage = 0 ∧
    update_value throttleLens exStore.throttle 0 (reset_disconnected exStore) = reset_disconnected exStore ∧
    update_value gearLens exStore.gear 0 (reset_disconnected exStore) = reset_disconnected exStore ∧
    update_value rpmLens exStore.rpm 0 (reset_disconnected exStore) = reset_disconnected exStore ∧
    update_value controllerTempLens exStore.controller_temp 0 (reset_disconnected exStore) = reset_disconnected exStore ∧
    update_value motorTempLens exStore.motor_temp 0 (reset_disconnected exStore) = reset_disconnected exStore ∧
    update_value speedLens exStore.speed 0 (reset_disconnected exStore) = reset_disconnected exStore ∧
    update_value powerLens exStore.power 0 (reset_disconnected exStore) = reset_disconnected exStore ∧
    update_value voltageLens exStore.voltage 0 (reset_disconnected exStore) = reset_disconnected exStore :=
  reset_shadow_stale exStore 0 rfl rfl rfl rfl rfl rfl rfl rfl

/-! ## C6: the history never exceeds its capacity and evicts FIFO -/

/-- One insertion keeps the history within capacity. -/
theorem push_history_length_le (cap : ℕ) (h : List PacketInfo) (p : PacketInfo)
    (hle : h.length ≤ cap) : (push_history cap h p).length ≤ cap := by
  unfold push_history
  by_cases hc : cap < (h ++ [p]).length
  · rw [if_pos hc, List.length_tail]
    simp only [List.length_append, List.length_cons, List.length_nil]
    omega
  · rw [if_neg hc]
    simp only [List.length_append, List.length_cons, List.length_nil] at hc ⊢
    omega

/-- Recording any packet sequence keeps the history within capacity. -/
theorem record_packets_length_le (cap : ℕ) (ps : List PacketInfo)
    (h : List PacketInfo) (hle : h.length ≤ cap) :
    (record_packets cap h ps).length ≤ cap := by
  induction ps generalizing h with
  | nil => simpa [record_packets] using hle
  | cons p ps ih => exact ih (push_history cap h p) (push_history_length_le cap h p hle)

/-- Recording onto an in-capacity history keeps exactly the newest
entries: the result is the suffix of the concatenation that fits. -/
theorem record_packets_eq_drop (cap : ℕ) (ps : List PacketInfo)
    (h : List PacketInfo) (hle : h.length ≤ cap) :
    record_packets cap h ps = (h ++ ps).drop (h.length + ps.length - cap) := by
  induction ps generalizing h with
  | nil =>
    have h0 : h.length - cap = 0 := by omega
    simp [record_packets, h0]
  | cons p ps ih =>
    have step : record_packets cap h (p :: ps) =
        record_packets cap (push_history cap h p) ps := rfl
    rw [step]
    by_cases hc : cap < (h ++ [p]).length
    · have hlen : h.length = cap := by
        simp only [List.length_append, List.length_cons, List.length_nil] at hc
        omega
      have hpush : push_history cap h p = (h ++ [p]).tail := by
        unfold push_history; rw [if_pos hc]
      have hne : h ++ [p] ≠ [] := by simp
      have htail_len : ((h ++ [p]).tail).length = cap := by
        rw [List.length_tail]
        simp only [List.length_append, List.length_cons, List.length_nil]
        omega
      rw [hpush, ih _ (le_of_eq htail_len), htail_len]
      have e1 : cap + ps.length - cap = ps.length := by omega
      rw [e1, ← List.tail_append_of_ne_nil hne, ← List.drop_one, List.drop_drop]
      have e2 : h ++ p :: ps = (h ++ [p]) ++ ps := by simp
      rw [e2]
      congr 1
      simp only [List.length_append, List.length_cons, List.length_nil]
      omega
    · have hpush : push_history cap h p = h ++ [p] := by
        unfold push_history; rw [if_neg hc]
      have hlen : (h ++ [p]).length ≤ cap := by omega
      rw [hpush, ih _ hlen]
      have e2 : (h ++ [p]) ++ ps = h ++ p :: ps := by simp
      rw [e2]
      congr 1
      simp only [List.length_append, List.length_cons, List.length_nil]
      omega

/-- C6: the packet history never holds more than its capacity (1000 by
default); after recording `capacity + k` packets into an empty history
the `k` oldest are gone and the rest remain in arrival order, and
`get_recent_packets` returns a suffix of the history — the most recent
packets, most recent last. -/
theorem history_bounded (cap k n : ℕ) (h ps : List PacketInfo)
    (hcap : h.length ≤ cap) (hlen : ps.length = cap + k) (hne : h ≠ [])
    (hn : 1 ≤ n) :
    (record_packets cap h ps).length ≤ cap ∧
    record_packets cap [] ps = ps.drop k ∧
    max_history = 1000 ∧
    get_recent_packets h n <:+ h ∧
    (get_recent_packets h n).length = min n h.length ∧
    (get_recent_packets h n).getLast? = h.getLast? := by
  have hrec : get_recent_packets h n = h.drop (h.length - n) := by
    unfold get_recent_packets
    rw [if_neg hne, if_neg (by omega)]
  have hpos : 0 < h.length := List.length_pos.mpr hne
  refine ⟨record_packets_length_le cap ps h hcap, ?_, rfl, ?_, ?_, ?_⟩
  · rw [record_packets_eq_drop cap ps [] (by simp)]
    simp only [List.nil_append, List.length_nil, Nat.zero_add]
    congr 1
    omega
  · rw [hrec]; exact List.drop_suffix _ _
  · rw [hrec, List.length_drop]; omega
  · rw [hrec]
    have hd : h.drop (h.length - n) ≠ [] := by
      have : (h.drop (h.length - n)).length = h.length - (h.length - n) :=
        List.length_drop _ _
      intro hnil
      rw [hnil] at this
      simp only [List.length_nil] at this
      omega
    conv_rhs => rw [← List.take_append_drop (h.length - n) h]
    exact (List.getLast?_append_of_ne_nil _ hd).symm

/-- Witness for C6: capacity 2, one pre-existing packet, three recorded
packets (so one eviction), recent window of one. -/
theorem history_bounded_witness :
    (record_packets 2 [pInfo 0] [pInfo 1, pInfo 2, pInfo 3]).length ≤ 2 ∧
    record_packets 2 [] [pInfo 1, pInfo 2, pInfo 3] =
      [pInfo 1, pInfo 2, pInfo 3].drop 1 ∧
    max_history = 1000 ∧
    get_recent_packets [pInfo 0] 1 <:+ [pInfo 0] ∧
    (get_recent_packets [pInfo 0] 1).length = min 1 [pInfo 0].length ∧
    (get_recent_packets [pInfo 0] 1).getLast? = [pInfo 0].getLast? :=
  history_bounded 2 1 1 [pInfo 0] [pInfo 1, pInfo 2, pInfo 3] (by decide)
    (by decide) (by decide) (by decide)

/-! ## C9: statistics contract -/

/-- The statistics loop counts checksum errors and per-index packets
like `countP`, whatever the starting counters. -/
theorem stats_step_foldl (h : List PacketInfo) :
    ∀ (c : ℕ → ℕ) (e : ℕ),
    ((h.foldl stats_step (c, e)).2 =
      e + h.countP (fun p => !p.checksum_valid)) ∧
    (∀ i, (h.foldl stats_step (c, e)).1 i =
      c i + h.countP (fun p => decide (p.index = i))) := by
  induction h with
  | nil => intro c e; simp
  | cons p h ih =>
    intro c e
    rw [List.foldl_cons]
    have ih1 := ih (stats_step (c, e) p).1 (stats_step (c, e) p).2
    rw [Prod.mk.eta] at ih1
    obtain ⟨ihe, ihc⟩ := ih1
    constructor
    · rw [ihe]
      show (if ¬ p.checksum_valid = true then e + 1 else e) + _ = _
      rw [List.countP_cons]
      by_cases hcv : p.checksum_valid = true
      · simp [hcv]
      · have hfalse : p.checksum_valid = false := Bool.eq_false_iff.mpr hcv
        simp [hfalse]
        omega
    · intro i
      rw [ihc i]
      show (if i = p.index then c p.index + 1 else c i) + _ = _
      rw [List.countP_cons]
      by_cases hip : i = p.index
      · subst hip
        simp
        omega
      · have hip2 : ¬ p.index = i := fun hh => hip hh.symm
        simp [hip, hip2]

/-- Counterexample to C9 as stated: an empty history yields an empty
result with no fields at all, not a statistics record with a zero error
rate. -/
theorem stats_empty_counterexample :
    get_packet_statistics [] = none := rfl

/-- C9 amended: for a nonempty history the returned statistics hold the
total, valid and checksum-error counts, the per-index distribution, and
`errorRate = checksumErrors / total`; for an empty history an empty
result (no fields) is returned instead of a zero error rate. -/
theorem stats_contract (hist : List PacketInfo) (i : ℕ) (hne : hist ≠ []) :
    (get_packet_statistics hist).map Stats.total_packets = some hist.length ∧
    (get_packet_statistics hist).map Stats.valid_packets = some hist.length ∧
    (get_packet_statistics hist).map Stats.checksum_errors =
      some (hist.countP (fun p => !p.checksum_valid)) ∧
    (get_packet_statistics hist).map (fun s => s.index_distribution i) =
      some (hist.countP (fun p => decide (p.index = i))) ∧
    (get_packet_statistics hist).map Stats.error_rate =
      some ((hist.countP (fun p => !p.checksum_valid) : ℚ) / (hist.length : ℚ)) := by
  obtain ⟨he, hc⟩ := stats_step_foldl hist (fun _ => 0) 0
  have hfe : (stats_fold hist).2 = hist.countP (fun p => !p.checksum_valid) := by
    rw [stats_fold, he, Nat.zero_add]
  have hfc : (stats_fold hist).1 i = hist.countP (fun p => decide (p.index = i)) := by
    rw [stats_fold, hc i, Nat.zero_add]
  have hpos : 0 < hist.length := List.length_pos.mpr hne
  unfold get_packet_statistics
  rw [if_neg hne]
  refine ⟨?_, ?_, ?_, ?_, ?_⟩ <;> simp only [Option.map_some]
  · rfl
  · rfl
  · exact congrArg some hfe
  · exact congrArg some hfc
  · refine congrArg some ?_
    show (if 0 < hist.length then ((stats_fold hist).2 : ℚ) / (hist.length : ℚ) else 0) = _
    rw [if_pos hpos, hfe]

/-- Witness for C9 at a two-packet history with one checksum error. -/
theorem stats_contract_witness :
    (get_packet_statistics [pInfo 0, pInfoBad 1]).map Stats.total_packets =
      some [pInfo 0, pInfoBad 1].length ∧
    (get_packet_statistics [pInfo 0, pInfoBad 1]).map Stats.valid_packets =
      some [pInfo 0, pInfoBad 1].length ∧
    (get_packet_statistics [pInfo 0, pInfoBad 1]).map Stats.checksum_errors =
      some ([pInfo 0, pInfoBad 1].countP (fun p => !p.checksum_valid)) ∧
    (get_packet_statistics [pInfo 0, pInfoBad 1]).map
        (fun s => s.index_distribution 1) =
      some ([pInfo 0, pInfoBad 1].countP (fun p => decide (p.index = 1))) ∧
    (get_packet_statistics [pInfo 0, pInfoBad 1]).map Stats.error_rate =
      some (([pInfo 0, pInfoBad 1].countP (fun p => !p.checksum_valid) : ℚ) /
        ([pInfo 0, pInfoBad 1].length : ℚ)) :=
  stats_contract [pInfo 0, pInfoBad 1] 1 (by decide)

/-! ## C7: staleness and the displayed connection state -/

/-- Counterexample to C7 as stated: with the transport-level connected
flag still set and no frame for 10 seconds (well past the 5-second
staleness window), the displayed state is still connected-equivalent —
staleness alone never forces the disconnected-equivalent state while
`is_connected` is true, because the code computes
`is_connected or has_recent_data`. -/
theorem stale_counterexample :
    (5 : ℚ) < 10 - 0 ∧ actual_connected true 10 0 = true := by
  constructor
  · norm_num
  · rfl

/-- C7 amended: the stale-data timeout decides the displayed state only
when the transport-level connected flag is false — observers then see
the disconnected-equivalent state exactly when no frame has updated the
store within the last 5 seconds; while the flag is true the displayed
state is connected-equivalent regardless of staleness. -/
theorem stale_disconnected (now lu : ℚ) :
    (actual_connected false now lu = false ↔ ¬ (now - lu < 5)) ∧
    actual_connected true now lu = true := by
  constructor
  · unfold actual_connected has_recent_data
    simp
  · rfl

/-- Witness for the amended C7 at a frame gap of 10 seconds. -/
theorem stale_disconnected_witness :
    (actual_connected false 10 0 = false ↔ ¬ ((10 : ℚ) - 0 < 5)) ∧
    actual_connected true 10 0 = true :=
  stale_disconnected 10 0

end FarDriver
